import Mathlib

/-!
Shallow embedding of `src/web_app.py` (ML pipeline web orchestrator).

The program keeps a global `pipeline_status` record, runs the pipeline
stages (conversion, cleaning, training, inference) as external worker
processes via `subprocess.run`, validates each stage by the existence of
its output artifact, and exposes HTTP handlers (`/upload`, `/predict`,
`/clear`, `/status`).

Modelling conventions:
* Machine state is `RunState`: the status record, the set of existing
  files (paths as segment lists relative to the data root `/app/data`),
  the list of argv vectors passed to `subprocess.run` (in order), a
  logical clock standing in for `datetime.now()`, and a `trace` of
  snapshots taken after every mutation of the shared status record and
  after every subprocess invocation (newest first).
* All external nondeterminism (exit codes, raised exceptions, whether a
  worker created its artifact, probe results, docker command stdout) is
  an input `World`.
* Python `os.rename`/`os.remove` on the raw file are modelled as a net
  update of the file set; a raising rename is modelled as raising before
  mutating the file set.
* Directories are not tracked by the pipeline file set (`os.makedirs`
  has no observable effect on the artifact-existence checks the code
  performs).  The `/clear` handler gets its own finer filesystem model
  (`FsEntry`) with an is-regular-file flag, because its behaviour
  depends on `os.path.isfile` and `os.listdir`.
-/

namespace WebApp

/-- Phase status strings used by `web_app.py`:
`'pending' | 'running' | 'completed' | 'error'`. -/
inductive Status where
  | pending
  | running
  | completed
  | error
deriving DecidableEq

/-- One entry of `pipeline_status['phases']`: `{'status', 'timestamp', 'message'}`.
`timestamp` is `None` initially, set to the current time by `update_phase`;
time is modelled by a `Nat` clock. -/
structure PhaseState where
  status : Status
  timestamp : Option Nat
  message : String
deriving DecidableEq

/-- One entry of `pipeline_status['logs']` (see `add_log`). -/
structure LogEntry where
  timestamp : Nat
  message : String
  level : String
deriving DecidableEq

/-- The global `pipeline_status` dict: `current_phase`, the five phase
records (fixed keys `upload, conversion, cleaning, training, inference`),
`model_ready`, `logs`. -/
structure PipelineStatus where
  current_phase : String
  upload : PhaseState
  conversion : PhaseState
  cleaning : PhaseState
  training : PhaseState
  inference : PhaseState
  model_ready : Bool
  logs : List LogEntry
deriving DecidableEq

/-- The five phase keys, in the fixed pipeline order. -/
inductive Phase where
  | upload
  | conversion
  | cleaning
  | training
  | inference
deriving DecidableEq

def phaseName : Phase → String
  | .upload => "upload"
  | .conversion => "conversion"
  | .cleaning => "cleaning"
  | .training => "training"
  | .inference => "inference"

def statusName : Status → String
  | .pending => "pending"
  | .running => "running"
  | .completed => "completed"
  | .error => "error"

def PipelineStatus.setPhase (st : PipelineStatus) (p : Phase) (ps : PhaseState) :
    PipelineStatus :=
  match p with
  | .upload => { st with upload := ps }
  | .conversion => { st with conversion := ps }
  | .cleaning => { st with cleaning := ps }
  | .training => { st with training := ps }
  | .inference => { st with inference := ps }

def PipelineStatus.phase (st : PipelineStatus) : Phase → PhaseState
  | .upload => st.upload
  | .conversion => st.conversion
  | .cleaning => st.cleaning
  | .training => st.training
  | .inference => st.inference

/-- The initial value of the module-level `pipeline_status` literal
(lines 21-32 of `web_app.py`). -/
def pendingPhase : PhaseState := { status := .pending, timestamp := none, message := "" }

def initialStatus : PipelineStatus :=
  { current_phase := "idle"
    upload := pendingPhase
    conversion := pendingPhase
    cleaning := pendingPhase
    training := pendingPhase
    inference := pendingPhase
    model_ready := false
    logs := [] }

/-- A snapshot of the observable shared state: the status record plus the
subprocess invocations made so far.  The trace records one snapshot after
every mutation of `pipeline_status` and after every `subprocess.run`. -/
structure Snap where
  status : PipelineStatus
  cmds : List (List String)
deriving DecidableEq

/-- Full machine state threaded through the embedded handlers.
`fs` is the set of existing files, each path a list of segments relative
to `/app/data` (e.g. `["raw", "OnlineRetail.csv"]`).  `cmds` collects
the argv of every `subprocess.run` call, oldest first.  `trace` is
newest-first. -/
structure RunState where
  status : PipelineStatus
  fs : List (List String)
  cmds : List (List String)
  clock : Nat
  trace : List Snap
deriving DecidableEq

def snap (s : RunState) : RunState :=
  { s with trace := { status := s.status, cmds := s.cmds } :: s.trace }

/-- `add_log(message, level='info')` (lines 38-47): appends a log entry to
`pipeline_status['logs']` and emits it.  The socket emit has no effect on
the model; the mutation is snapshotted. -/
def add_log (s : RunState) (message : String) (level : String) : RunState :=
  let entry : LogEntry := { timestamp := s.clock, message := message, level := level }
  snap { s with
          status := { s.status with logs := s.status.logs ++ [entry] },
          clock := s.clock + 1 }

/-- `update_phase(phase, status, message='')` (lines 49-56): sets the
phase's status/timestamp/message, sets `current_phase`, adds a log entry
(level `error` iff the status is `error`) and emits the status. -/
def update_phase (s : RunState) (p : Phase) (status : Status) (message : String) :
    RunState :=
  let ps : PhaseState := { status := status, timestamp := some s.clock, message := message }
  let st := { s.status.setPhase p ps with current_phase := phaseName p }
  let s := snap { s with status := st, clock := s.clock + 1 }
  add_log s ("Fase " ++ phaseName p ++ ": " ++ statusName status ++ " - " ++ message)
    (if status = Status.error then "error" else "info")

/-- `pipeline_status['model_ready'] = b` (lines 270, 279). -/
def set_model_ready (s : RunState) (b : Bool) : RunState :=
  snap { s with status := { s.status with model_ready := b } }

/-- Record one `subprocess.run(cmd, ...)` invocation. -/
def pushCmd (s : RunState) (c : List String) : RunState :=
  snap { s with cmds := s.cmds ++ [c] }

/-- Replace the whole status record (the reset loops of `upload_file` and
`clear_data`), snapshotting the mutation. -/
def setStatus (s : RunState) (st : PipelineStatus) : RunState :=
  snap { s with status := st }

/-- Replace the set of existing files (effect of `os.rename`, `os.remove`
and of artifacts created by a worker). -/
def setFs (s : RunState) (fs : List (List String)) : RunState :=
  { s with fs := fs }

/-- Remove every occurrence of a path (`os.remove`). -/
def fsRemove (fs : List (List String)) (p : List String) : List (List String) :=
  fs.filter (fun q => q ≠ p)

/-- Make a path exist (target of `os.rename` / artifact creation). -/
def fsAdd (fs : List (List String)) (p : List String) : List (List String) :=
  p :: fsRemove fs p

/-- `os.path.exists` on the pipeline's artifact paths. -/
def fsHas (fs : List (List String)) (p : List String) : Bool :=
  decide (p ∈ fs)

/-- `os.path.join(data_path, 'raw', fn)`; the constant `/app/data` prefix
is dropped, paths are segment lists. -/
def rawPath (fn : String) : List String := ["raw", fn]

def cleanedPath : List String := ["processed", "OnlineRetail_cleaned.csv"]

def modelPath : List String := ["model", "model.pkl"]

/-- Python `str.endswith`. -/
def strEndsWith (s suffix : String) : Bool :=
  List.isSuffixOf suffix.toList s.toList

/-- Python `str.strip()` (whitespace at both ends). -/
def isWsChar (c : Char) : Bool :=
  c = ' ' || c = '\n' || c = '\t' || c = '\r'

def pyStrip (s : String) : String :=
  String.mk (((s.toList.dropWhile isWsChar).reverse.dropWhile isWsChar).reverse)

/-- Python `str.split('\n')` (on a newline separator). -/
def splitNlAux : List Char → List (List Char)
  | [] => [[]]
  | c :: cs =>
    match splitNlAux cs with
    | [] => [[]]
    | h :: t => if c = '\n' then [] :: h :: t else (c :: h) :: t

def pySplitNl (s : String) : List String :=
  (splitNlAux s.toList).map String.mk

/-- Python `needle in hay` on strings (substring test). -/
def containsSub (needle hay : List Char) : Bool :=
  match hay with
  | [] => needle.isEmpty
  | _ :: t => needle.isPrefixOf hay || containsSub needle t

/-- Outcome of a `subprocess.run(..., timeout=...)` call: it finished with
an exit code and captured output, it hit `subprocess.TimeoutExpired`, or
it raised some other exception. -/
inductive ProcOutcome where
  | finished (returncode : Int) (stdout stderr : String)
  | timedOut
  | raised (msg : String)
deriving DecidableEq

/-- Outcome of a `subprocess.run` call without a timeout argument (the
inference `docker run -d`, line 262): no timeout is possible. -/
inductive RunOutcome where
  | finished (returncode : Int) (stdout stderr : String)
  | raised (msg : String)
deriving DecidableEq

/-- All external nondeterminism of one `run_pipeline` run. -/
structure World where
  /-- `get_host_data_path()` result (env var or `/app/data`). -/
  hostDataPath : String
  /-- `some msg` iff the remove/rename of the uploaded `.xlsx` (lines
  95-98) raises; modelled as raising before mutating the file set. -/
  renameXlsxRaises : Option String
  /-- `some msg` iff the remove/rename of the uploaded `.csv` (lines
  142-144) raises. -/
  renameCsvRaises : Option String
  /-- Result of the converter container run (line 114). -/
  converter : ProcOutcome
  /-- Whether the converter run created `raw/OnlineRetail.csv`. -/
  converterCreatesCsv : Bool
  /-- Result of the cleaning container run (line 171). -/
  cleaningProc : ProcOutcome
  /-- Whether the cleaning run created `processed/OnlineRetail_cleaned.csv`. -/
  cleaningCreatesFile : Bool
  /-- Result of the training container run (line 207). -/
  trainingProc : ProcOutcome
  /-- Whether the training run created `model/model.pkl`. -/
  trainingCreatesModel : Bool
  /-- `some msg` iff the unguarded `docker stop` call (line 233) raises;
  such an exception is only caught by `run_pipeline`'s top-level handler
  (lines 288-289). -/
  stopRaises : Option String
  /-- stdout of `docker network ls` (line 242). -/
  networkLsStdout : String
  /-- Result of the inference `docker run -d` (line 262). -/
  inferenceRun : RunOutcome
  /-- Whether the readiness `requests.get` probe (line 268) succeeds. -/
  probeOk : Bool
  /-- stdout of `docker ps --filter ...` (line 273). -/
  psStdout : String
deriving DecidableEq

def volArg (w : World) : String := w.hostDataPath ++ ":/data"

def converterCmd (w : World) : List String :=
  ["docker", "run", "--rm", "-v", volArg w, "ml-pipeline-converter"]

def cleaningCmd (w : World) (fn : String) : List String :=
  ["docker", "run", "--rm", "-v", volArg w, "-e", "DATASET_FILE=" ++ fn,
   "ml-pipeline-cleaning"]

def trainingCmd (w : World) : List String :=
  ["docker", "run", "--rm", "-v", volArg w, "ml-pipeline-training"]

def stopCmd : List String := ["docker", "stop", "ml_inference_service"]

def rmCmd : List String := ["docker", "rm", "ml_inference_service"]

def networkLsCmd : List String :=
  ["docker", "network", "ls", "--format", "\x7b\x7b.Name\x7d\x7d",
   "--filter", "name=ml_pipeline_network"]

def inferenceCmd (w : World) (network : String) : List String :=
  ["docker", "run", "-d", "--name", "ml_inference_service",
   "--network", network, "-v", volArg w, "-p", "5000:5000",
   "ml-pipeline-inference"]

def psCmd : List String :=
  ["docker", "ps", "--filter", "name=ml_inference_service", "--format",
   "\x7b\x7b.Status\x7d\x7d"]

def cmdText (c : List String) : String := String.intercalate " " c

/-- The converter container block (lines 105-135): run the converter,
then gate the phase on the existence of `raw/OnlineRetail.csv`. -/
def convRun (w : World) (s : RunState) : Except RunState (String × RunState) :=
  let s := add_log s ("Esecuzione comando: " ++ cmdText (converterCmd w)) "info"
  let s := pushCmd s (converterCmd w)
  match w.converter with
  | .finished rc out err =>
    let s := setFs s (if w.converterCreatesCsv then fsAdd s.fs (rawPath "OnlineRetail.csv")
            else s.fs)
    if rc = 0 then
      let s := add_log s ("Converter output: " ++ out) "info"
      if fsHas s.fs (rawPath "OnlineRetail.csv") then
        .ok ("OnlineRetail.csv",
          update_phase s .conversion .completed "File Excel convertito in CSV")
      else
        .error (update_phase s .conversion .error "CSV non creato dopo conversione")
    else
      let s := add_log s ("Converter error: " ++ err) "error"
      .error (update_phase s .conversion .error ("Errore conversione: " ++ err))
  | .timedOut =>
    .error (update_phase s .conversion .error "Timeout durante la conversione")
  | .raised e =>
    .error (update_phase s .conversion .error ("Errore esecuzione converter: " ++ e))

/-- Phase 1: conversion (lines 78-148).  Returns `.error s` when
`run_pipeline` executes `return`, otherwise `.ok (filename, s)` with the
possibly-updated local `filename`. -/
def stageConversion (w : World) (filename : String) (s : RunState) :
    Except RunState (String × RunState) :=
  if strEndsWith filename ".xlsx" then
    let s := update_phase s .conversion .running "Conversione Excel in CSV..."
    if fsHas s.fs (rawPath filename) then
      if filename = "OnlineRetail.xlsx" then convRun w s
      else
        let s := add_log s ("Rinomino " ++ filename ++ " in OnlineRetail.xlsx") "info"
        match w.renameXlsxRaises with
        | some e =>
          let s := add_log s ("Errore nel rinominare il file: " ++ e) "error"
          .error (update_phase s .conversion .error
            ("Errore nel rinominare il file: " ++ e))
        | none =>
          convRun w
            (setFs s (fsAdd (fsRemove s.fs (rawPath filename))
                            (rawPath "OnlineRetail.xlsx")))
    else
      .error (update_phase s .conversion .error ("File " ++ filename ++ " non trovato"))
  else
    if filename = "OnlineRetail.csv" then .ok (filename, s)
    else
      match w.renameCsvRaises with
      | none =>
        let s := setFs s (fsAdd (fsRemove s.fs (rawPath filename))
                                  (rawPath "OnlineRetail.csv"))
        let s := add_log s "Rinominato CSV in OnlineRetail.csv" "info"
        .ok ("OnlineRetail.csv", s)
      | some e =>
        -- the except branch (lines 147-148) only logs; no return, the
        -- original filename is kept
        let s := add_log s ("Errore nel rinominare CSV: " ++ e) "error"
        .ok (filename, s)

/-- Phase 2: cleaning (lines 150-191). -/
def stageCleaning (w : World) (filename : String) (s : RunState) :
    Except RunState RunState :=
  let s := update_phase s .cleaning .running "Pulizia e trasformazione dati..."
  if fsHas s.fs (rawPath filename) then
    -- os.makedirs(processed) has no effect on artifact existence checks
    let s := add_log s ("Esecuzione comando: " ++ cmdText (cleaningCmd w filename)) "info"
    let s := pushCmd s (cleaningCmd w filename)
    match w.cleaningProc with
    | .finished rc out err =>
      let s := setFs s (if w.cleaningCreatesFile then fsAdd s.fs cleanedPath else s.fs)
      if rc = 0 then
        let s := add_log s ("Cleaning output: " ++ out) "info"
        if fsHas s.fs cleanedPath then
          .ok (update_phase s .cleaning .completed "Dati puliti e trasformati")
        else
          .error (update_phase s .cleaning .error "File pulito non creato")
      else
        let s := add_log s ("Cleaning error: " ++ err) "error"
        .error (update_phase s .cleaning .error ("Errore pulizia: " ++ err))
    | .timedOut => .error (update_phase s .cleaning .error "Timeout durante la pulizia")
    | .raised e =>
      .error (update_phase s .cleaning .error ("Errore esecuzione cleaning: " ++ e))
  else
    .error (update_phase s .cleaning .error ("File CSV " ++ filename ++ " non trovato"))

/-- Phase 3: training (lines 193-227). -/
def stageTraining (w : World) (s : RunState) : Except RunState RunState :=
  let s := update_phase s .training .running "Addestramento modello ML..."
  let s := add_log s ("Esecuzione comando: " ++ cmdText (trainingCmd w)) "info"
  let s := pushCmd s (trainingCmd w)
  match w.trainingProc with
  | .finished rc out err =>
    let s := setFs s (if w.trainingCreatesModel then fsAdd s.fs modelPath else s.fs)
    if rc = 0 then
      let s := add_log s ("Training output: " ++ out) "info"
      if fsHas s.fs modelPath then
        .ok (update_phase s .training .completed "Modello addestrato con successo")
      else
        .error (update_phase s .training .error "Modello non creato")
    else
      let s := add_log s ("Training error: " ++ err) "error"
      .error (update_phase s .training .error ("Errore training: " ++ err))
  | .timedOut => .error (update_phase s .training .error "Timeout durante il training")
  | .raised e =>
    .error (update_phase s .training .error ("Errore esecuzione training: " ++ e))

/-- Phase 4: inference service (lines 229-286), plus the top-level
exception handler of `run_pipeline` (lines 288-289).  The only modelled
statement that can raise outside an inner `try` is the unguarded
`docker stop` (line 233); when it raises, the top-level handler runs:
it only calls `add_log(..., 'error')` and returns. -/
def stageInference (w : World) (s : RunState) : RunState :=
  let s := update_phase s .inference .running "Avvio servizio di inferenza..."
  match w.stopRaises with
  | some e => add_log s ("Errore nella pipeline: " ++ e) "error"
  | none =>
    let s := pushCmd s stopCmd
    let s := pushCmd s rmCmd
    let s := pushCmd s networkLsCmd
    -- `networks = ....strip().split('\n')`; `if networks and networks[0]:`
    -- (lines 243-251).  `split` never yields an empty list, so the Python
    -- truthiness test is equivalent to: the first element is non-empty.
    let n0 := (pySplitNl (pyStrip w.networkLsStdout)).headD ""
    let network_name := if n0 = "" then "ml_pipeline_network" else n0
    let s :=
      if n0 = "" then
        add_log s "Nessuna rete trovata, utilizzo default: ml_pipeline_network" "warning"
      else add_log s ("Trovata rete Docker: " ++ n0) "info"
    let s := add_log s ("Esecuzione comando: " ++ cmdText (inferenceCmd w network_name)) "info"
    let s := pushCmd s (inferenceCmd w network_name)
    match w.inferenceRun with
    | .finished rc _ err =>
      if rc = 0 then
        -- time.sleep(5), then the readiness probe
        if w.probeOk then
          let s := update_phase s .inference .completed "Servizio attivo su porta 5000"
          set_model_ready s true
        else
          let s := pushCmd s psCmd
          if containsSub "Up".toList w.psStdout.toList then
            let s := update_phase s .inference .completed "Servizio in avvio su porta 5000"
            set_model_ready s true
          else
            update_phase s .inference .error "Servizio non si è avviato correttamente"
      else
        let s := add_log s ("Inference error: " ++ err) "error"
        update_phase s .inference .error ("Errore inferenza: " ++ err)
    | .raised e => update_phase s .inference .error ("Errore avvio inferenza: " ++ e)

/-- Stages 3-4 of `run_pipeline` (everything after a successful cleaning). -/
def afterCleaning (w : World) (s : RunState) : RunState :=
  match stageTraining w s with
  | .error s => s
  | .ok s => stageInference w s

/-- `run_pipeline(filename)` (lines 72-289). -/
def run_pipeline (w : World) (filename : String) (s : RunState) : RunState :=
  match stageConversion w filename s with
  | .error s => s
  | .ok (fn, s) =>
    match stageCleaning w fn s with
    | .error s => s
    | .ok s => afterCleaning w s

/-- The status reset performed by a valid upload trigger (lines 306-309):
every phase pending/empty, logs cleared, `model_ready` false.
`current_phase` is NOT touched by this reset. -/
def uploadResetStatus (st : PipelineStatus) : PipelineStatus :=
  { st with
    upload := pendingPhase
    conversion := pendingPhase
    cleaning := pendingPhase
    training := pendingPhase
    inference := pendingPhase
    logs := []
    model_ready := false }

/-- The status reset performed by `/clear` (lines 426-430): the same as
the upload reset, plus `current_phase = 'idle'`. -/
def clearResetStatus (st : PipelineStatus) : PipelineStatus :=
  { st with
    upload := pendingPhase
    conversion := pendingPhase
    cleaning := pendingPhase
    training := pendingPhase
    inference := pendingPhase
    logs := []
    model_ready := false
    current_phase := "idle" }

/-- The valid-file branch of `upload_file` (lines 304-326): reset the
status, save the file into `raw/`, mark the upload phase completed.  The
background thread then runs `run_pipeline`. -/
def upload_file (fn : String) (s : RunState) : RunState :=
  let s := setStatus s (uploadResetStatus s.status)
  let s := setFs s (fsAdd s.fs (rawPath fn))
  update_phase s .upload .completed ("File " ++ fn ++ " caricato con successo")

def initState (fs0 : List (List String)) : RunState :=
  { status := initialStatus, fs := fs0, cmds := [], clock := 0,
    trace := [{ status := initialStatus, cmds := [] }] }

/-- A complete triggered run: the upload handler followed by the
background `run_pipeline` it starts. -/
def uploadAndRun (w : World) (fn : String) (s : RunState) : RunState :=
  run_pipeline w fn (upload_file fn s)

/-! ## The `/predict` proxy (lines 363-376) -/

/-- Response bodies of the `/predict` handler: either the inference
worker's JSON response relayed as-is, or a `{'error': msg}` body. -/
inductive RespBody where
  | relayed (payload : String)
  | errorBody (msg : String)
deriving DecidableEq

structure HttpReply where
  code : Nat
  body : RespBody
deriving DecidableEq

/-- External nondeterminism of one `/predict` call: whether
`request.json` parses (`none` models a raising access, caught by the
outer handler), and the result of `requests.post` to the worker
(`.ok body` = the worker's JSON response, `.error msg` = a
`requests.exceptions.RequestException`). -/
structure PredictWorld where
  payload : Option String
  parseErrMsg : String
  postResult : Except String String

/-- `predict()` (lines 363-376): forward the JSON payload to the worker
and relay its JSON answer with code 200; on `RequestException` log and
answer 503 with a distinct error body; on any other exception answer
500. -/
def predict (w : PredictWorld) (s : RunState) : HttpReply × RunState :=
  match w.payload with
  | none => ({ code := 500, body := .errorBody w.parseErrMsg }, s)
  | some _ =>
    match w.postResult with
    | .ok body => ({ code := 200, body := .relayed body }, s)
    | .error e =>
      let s := add_log s ("Errore chiamata inferenza: " ++ e) "error"
      ({ code := 503, body := .errorBody "Servizio di inferenza non disponibile" }, s)

/-! ## The file-deleting part of `/clear` (lines 416-423) -/

/-- A filesystem entry for the `/clear` model: a path (segments relative
to `/app/data`) and whether `os.path.isfile` holds for it. -/
structure FsEntry where
  path : List String
  isFile : Bool
deriving DecidableEq

def clearFolderNames : List String := ["raw", "processed", "model"]

/-- `os.path.isfile(folder/file)` for a direct `os.listdir(folder)` child:
an entry is unlinked iff it is a regular file whose path is exactly
`[folder, name]`. -/
def isDirectFileIn (folder : String) (e : FsEntry) : Bool :=
  e.isFile &&
    match e.path with
    | [d, _] => d == folder
    | _ => false

/-- One iteration of the deletion loop of `clear_data` (lines 417-423):
if the folder exists (`os.path.exists`), unlink every regular file
directly inside it (`os.listdir` + `os.path.isfile` + `os.unlink`). -/
def clearFolderStep (acc : List FsEntry) (folder : String) : List FsEntry :=
  if acc.any (fun e => e.path == [folder]) then
    acc.filter (fun e => !(isDirectFileIn folder e))
  else acc

/-- The deletion loop of `clear_data` over the three data folders. -/
def clearFiles (fs : List FsEntry) : List FsEntry :=
  clearFolderNames.foldl clearFolderStep fs

/-! ## Invariant predicates (Boolean, over trace snapshots) -/

/-- "If any phase is `error`, all phases ordered after it in the fixed
sequence (`upload, conversion, cleaning, training, inference`) is
`pending`" — on a tuple of the five phase statuses. -/
def eblT (u c cl t i : Status) : Bool :=
  (!(u == .error) ||
    ((c == .pending) && (cl == .pending) && (t == .pending) && (i == .pending))) &&
  (!(c == .error) || ((cl == .pending) && (t == .pending) && (i == .pending))) &&
  (!(cl == .error) || ((t == .pending) && (i == .pending))) &&
  (!(t == .error) || (i == .pending))

/-- "If any phase is `error`, all phases ordered after it in the fixed
sequence are `pending`" — for one status record. -/
def eblB (st : PipelineStatus) : Bool :=
  eblT st.upload.status st.conversion.status st.cleaning.status
    st.training.status st.inference.status

def anyErrorT (u c cl t i : Status) : Bool :=
  (u == .error) || (c == .error) || (cl == .error) || (t == .error) || (i == .error)

def anyErrorB (st : PipelineStatus) : Bool :=
  anyErrorT st.upload.status st.conversion.status st.cleaning.status
    st.training.status st.inference.status

/-- Once `error`, a phase stays `error`. -/
def persistB (x y : Status) : Bool := !(x == .error) || (y == .error)

/-- Allowed single step of one phase's status within a run:
unchanged, `pending → running`, or `running → completed|error`. -/
def allowedB (x y : Status) : Bool :=
  (y == x) || ((x == .pending) && (y == .running)) ||
  ((x == .running) && ((y == .completed) || (y == .error)))

/-- Adjacent-snapshot relation for claim C1: every phase's `error` status
persists, and after any phase is `error` no further subprocess is
invoked (`cmds` is append-only, so an unchanged length means no new
invocation). -/
def errStepB (a b : Snap) : Bool :=
  persistB a.status.upload.status b.status.upload.status &&
  persistB a.status.conversion.status b.status.conversion.status &&
  persistB a.status.cleaning.status b.status.cleaning.status &&
  persistB a.status.training.status b.status.training.status &&
  persistB a.status.inference.status b.status.inference.status &&
  (!(anyErrorB a.status) || (a.cmds.length == b.cmds.length))

/-- Adjacent-snapshot relation for claim C6 restricted to the four phases
driven by `run_pipeline`. -/
def phaseStepB (a b : Snap) : Bool :=
  allowedB a.status.conversion.status b.status.conversion.status &&
  allowedB a.status.cleaning.status b.status.cleaning.status &&
  allowedB a.status.training.status b.status.training.status &&
  allowedB a.status.inference.status b.status.inference.status

def stepB (a b : Snap) : Bool := errStepB a b && phaseStepB a b

/-- Chain a Boolean relation along a newest-first snapshot trace:
`chronoB R (b :: a :: t)` requires `R a b` (`a` is the immediate
predecessor of `b`) and continues down the trace. -/
def chronoB (R : Snap → Snap → Bool) : List Snap → Bool
  | b :: a :: t => R a b && chronoB R (a :: t)
  | _ => true

/-- The run invariant carried through the orchestrator: every snapshot in
the trace satisfies `eblB`, the upload phase is never `running`, adjacent
snapshots satisfy `stepB`, and the head of the trace is the snapshot of
the current state. -/
def TraceOK (s : RunState) : Prop :=
  s.trace.all (fun sn => eblB sn.status) = true ∧
  s.trace.all (fun sn => !(sn.status.upload.status == Status.running)) = true ∧
  chronoB stepB s.trace = true ∧
  s.trace.head? = some { status := s.status, cmds := s.cmds }

/-- The five phase statuses and the `model_ready` flag of a state. -/
def Shape (s : RunState) (u c cl t i : Status) (mr : Bool) : Prop :=
  s.status.upload.status = u ∧ s.status.conversion.status = c ∧
  s.status.cleaning.status = cl ∧ s.status.training.status = t ∧
  s.status.inference.status = i ∧ s.status.model_ready = mr

/-- The run invariant together with a known shape: carried through every
stage of the orchestrator. -/
def Good (s : RunState) (u cv cl tn iv : Status) (mr : Bool) : Prop :=
  TraceOK s ∧ Shape s u cv cl tn iv mr

/-- Side condition of one `update_phase p st` call, on the five statuses
before the call: the step is allowed for all phases, no phase is in
`error`, and the resulting five statuses satisfy `eblT` with the upload
phase not `running`.  Decidable at the literal statuses arising at each
call site. -/
def updOkB (p : Phase) (st : Status) (u c cl t i : Status) : Bool :=
  let u' := if p = .upload then st else u
  let c' := if p = .conversion then st else c
  let cl' := if p = .cleaning then st else cl
  let t' := if p = .training then st else t
  let i' := if p = .inference then st else i
  persistB u u' && persistB c c' && persistB cl cl' && persistB t t' && persistB i i' &&
  allowedB c c' && allowedB cl cl' && allowedB t t' && allowedB i i' &&
  eblT u' c' cl' t' i' && !(u' == Status.running)

/-! ## Concrete worlds for witnesses and counterexamples -/

/-- A run in which every external step succeeds. -/
def wHappy : World :=
  { hostDataPath := "/host/data"
    renameXlsxRaises := none
    renameCsvRaises := none
    converter := .finished 0 "ok" ""
    converterCreatesCsv := true
    cleaningProc := .finished 0 "ok" ""
    cleaningCreatesFile := true
    trainingProc := .finished 0 "ok" ""
    trainingCreatesModel := true
    stopRaises := none
    networkLsStdout := "ml_pipeline_network_default\n"
    inferenceRun := .finished 0 "cid" ""
    probeOk := true
    psStdout := "" }

/-- Like `wHappy`, but the cleaning worker exits 0 without creating the
cleaned artifact. -/
def wNoArtifact : World := { wHappy with cleaningCreatesFile := false }

/-- Like `wHappy`, but the unguarded `docker stop` raises. -/
def wStopRaises : World := { wHappy with stopRaises := some "docker daemon unreachable" }

/-- Like `wHappy`, but the CSV rename raises. -/
def wRenameFails : World := { wHappy with renameCsvRaises := some "Permission denied" }

/-- A `/predict` call whose payload parses but whose worker is down. -/
def pwDown : PredictWorld :=
  { payload := some "data", parseErrMsg := "", postResult := .error "ConnectionError" }

/-- A small filesystem for the `/clear` claims: the raw folder holds a
regular file and a subdirectory with a file inside it. -/
def fsC10 : List FsEntry :=
  [{ path := ["raw"], isFile := false },
   { path := ["raw", "data.csv"], isFile := true },
   { path := ["raw", "sub"], isFile := false },
   { path := ["raw", "sub", "inner.csv"], isFile := true },
   { path := ["processed"], isFile := false },
   { path := ["model", "model.pkl"], isFile := true }]

/-! ## Projection lemmas for the state primitives -/

variable {s : RunState} {m l : String} {c : List String} {b : Bool}
variable {p : Phase} {st : Status} {ps : PhaseState}

@[simp] theorem add_log_status_upload : (add_log s m l).status.upload = s.status.upload := rfl
@[simp] theorem add_log_status_conversion :
    (add_log s m l).status.conversion = s.status.conversion := rfl
@[simp] theorem add_log_status_cleaning :
    (add_log s m l).status.cleaning = s.status.cleaning := rfl
@[simp] theorem add_log_status_training :
    (add_log s m l).status.training = s.status.training := rfl
@[simp] theorem add_log_status_inference :
    (add_log s m l).status.inference = s.status.inference := rfl
@[simp] theorem add_log_model_ready :
    (add_log s m l).status.model_ready = s.status.model_ready := rfl
@[simp] theorem add_log_cmds : (add_log s m l).cmds = s.cmds := rfl
@[simp] theorem add_log_fs : (add_log s m l).fs = s.fs := rfl

@[simp] theorem pushCmd_status : (pushCmd s c).status = s.status := rfl
@[simp] theorem pushCmd_cmds : (pushCmd s c).cmds = s.cmds ++ [c] := rfl
@[simp] theorem pushCmd_fs : (pushCmd s c).fs = s.fs := rfl

@[simp] theorem setFs_status {X : List (List String)} : (setFs s X).status = s.status := rfl
@[simp] theorem setFs_cmds {X : List (List String)} : (setFs s X).cmds = s.cmds := rfl
@[simp] theorem setFs_fs {X : List (List String)} : (setFs s X).fs = X := rfl
@[simp] theorem setFs_trace {X : List (List String)} : (setFs s X).trace = s.trace := rfl

@[simp] theorem setStatus_status {st0 : PipelineStatus} :
    (setStatus s st0).status = st0 := rfl
@[simp] theorem setStatus_cmds {st0 : PipelineStatus} : (setStatus s st0).cmds = s.cmds := rfl
@[simp] theorem setStatus_fs {st0 : PipelineStatus} : (setStatus s st0).fs = s.fs := rfl
@[simp] theorem setStatus_clock {st0 : PipelineStatus} : (setStatus s st0).clock = s.clock := rfl

@[simp] theorem add_log_logs :
    (add_log s m l).status.logs =
      s.status.logs ++ [{ timestamp := s.clock, message := m, level := l }] := rfl
@[simp] theorem pushCmd_logs : (pushCmd s c).status.logs = s.status.logs := rfl
@[simp] theorem setFs_logs {X : List (List String)} :
    (setFs s X).status.logs = s.status.logs := rfl
@[simp] theorem set_model_ready_logs :
    (set_model_ready s b).status.logs = s.status.logs := rfl
@[simp] theorem update_phase_logs :
    (update_phase s p st m).status.logs =
      s.status.logs ++
        [{ timestamp := s.clock + 1,
           message := "Fase " ++ phaseName p ++ ": " ++ statusName st ++ " - " ++ m,
           level := if st = Status.error then "error" else "info" }] := by
  cases p <;> rfl

@[simp] theorem initState_fs {fs0 : List (List String)} : (initState fs0).fs = fs0 := rfl
@[simp] theorem initState_cmds {fs0 : List (List String)} : (initState fs0).cmds = [] := rfl
@[simp] theorem initState_status {fs0 : List (List String)} :
    (initState fs0).status = initialStatus := rfl

@[simp] theorem uploadResetStatus_upload {st0 : PipelineStatus} :
    (uploadResetStatus st0).upload = pendingPhase := rfl
@[simp] theorem uploadResetStatus_conversion {st0 : PipelineStatus} :
    (uploadResetStatus st0).conversion = pendingPhase := rfl
@[simp] theorem uploadResetStatus_cleaning {st0 : PipelineStatus} :
    (uploadResetStatus st0).cleaning = pendingPhase := rfl
@[simp] theorem uploadResetStatus_training {st0 : PipelineStatus} :
    (uploadResetStatus st0).training = pendingPhase := rfl
@[simp] theorem uploadResetStatus_inference {st0 : PipelineStatus} :
    (uploadResetStatus st0).inference = pendingPhase := rfl
@[simp] theorem uploadResetStatus_model_ready {st0 : PipelineStatus} :
    (uploadResetStatus st0).model_ready = false := rfl
@[simp] theorem uploadResetStatus_logs {st0 : PipelineStatus} :
    (uploadResetStatus st0).logs = [] := rfl
@[simp] theorem uploadResetStatus_current {st0 : PipelineStatus} :
    (uploadResetStatus st0).current_phase = st0.current_phase := rfl

@[simp] theorem set_model_ready_status_upload :
    (set_model_ready s b).status.upload = s.status.upload := rfl
@[simp] theorem set_model_ready_status_conversion :
    (set_model_ready s b).status.conversion = s.status.conversion := rfl
@[simp] theorem set_model_ready_status_cleaning :
    (set_model_ready s b).status.cleaning = s.status.cleaning := rfl
@[simp] theorem set_model_ready_status_training :
    (set_model_ready s b).status.training = s.status.training := rfl
@[simp] theorem set_model_ready_status_inference :
    (set_model_ready s b).status.inference = s.status.inference := rfl
@[simp] theorem set_model_ready_model_ready :
    (set_model_ready s b).status.model_ready = b := rfl
@[simp] theorem set_model_ready_cmds : (set_model_ready s b).cmds = s.cmds := rfl
@[simp] theorem set_model_ready_fs : (set_model_ready s b).fs = s.fs := rfl

@[simp] theorem update_phase_upload_status :
    (update_phase s p st m).status.upload.status =
      if p = .upload then st else s.status.upload.status := by cases p <;> rfl
@[simp] theorem update_phase_conversion_status :
    (update_phase s p st m).status.conversion.status =
      if p = .conversion then st else s.status.conversion.status := by cases p <;> rfl
@[simp] theorem update_phase_cleaning_status :
    (update_phase s p st m).status.cleaning.status =
      if p = .cleaning then st else s.status.cleaning.status := by cases p <;> rfl
@[simp] theorem update_phase_training_status :
    (update_phase s p st m).status.training.status =
      if p = .training then st else s.status.training.status := by cases p <;> rfl
@[simp] theorem update_phase_inference_status :
    (update_phase s p st m).status.inference.status =
      if p = .inference then st else s.status.inference.status := by cases p <;> rfl
@[simp] theorem update_phase_model_ready :
    (update_phase s p st m).status.model_ready = s.status.model_ready := by cases p <;> rfl
@[simp] theorem update_phase_cmds : (update_phase s p st m).cmds = s.cmds := rfl
@[simp] theorem update_phase_fs : (update_phase s p st m).fs = s.fs := rfl


/-! PhaseState-level projections of `update_phase` at literal phases -/
@[simp] theorem update_phase_upload_self :
    (update_phase s .upload st m).status.upload =
      { status := st, timestamp := some s.clock, message := m } := rfl
@[simp] theorem update_phase_upload_keep_conversion :
    (update_phase s .upload st m).status.conversion = s.status.conversion := rfl
@[simp] theorem update_phase_upload_keep_cleaning :
    (update_phase s .upload st m).status.cleaning = s.status.cleaning := rfl
@[simp] theorem update_phase_upload_keep_training :
    (update_phase s .upload st m).status.training = s.status.training := rfl
@[simp] theorem update_phase_upload_keep_inference :
    (update_phase s .upload st m).status.inference = s.status.inference := rfl
@[simp] theorem update_phase_conversion_keep_upload :
    (update_phase s .conversion st m).status.upload = s.status.upload := rfl
@[simp] theorem update_phase_conversion_self :
    (update_phase s .conversion st m).status.conversion =
      { status := st, timestamp := some s.clock, message := m } := rfl
@[simp] theorem update_phase_conversion_keep_cleaning :
    (update_phase s .conversion st m).status.cleaning = s.status.cleaning := rfl
@[simp] theorem update_phase_conversion_keep_training :
    (update_phase s .conversion st m).status.training = s.status.training := rfl
@[simp] theorem update_phase_conversion_keep_inference :
    (update_phase s .conversion st m).status.inference = s.status.inference := rfl
@[simp] theorem update_phase_cleaning_keep_upload :
    (update_phase s .cleaning st m).status.upload = s.status.upload := rfl
@[simp] theorem update_phase_cleaning_keep_conversion :
    (update_phase s .cleaning st m).status.conversion = s.status.conversion := rfl
@[simp] theorem update_phase_cleaning_self :
    (update_phase s .cleaning st m).status.cleaning =
      { status := st, timestamp := some s.clock, message := m } := rfl
@[simp] theorem update_phase_cleaning_keep_training :
    (update_phase s .cleaning st m).status.training = s.status.training := rfl
@[simp] theorem update_phase_cleaning_keep_inference :
    (update_phase s .cleaning st m).status.inference = s.status.inference := rfl
@[simp] theorem update_phase_training_keep_upload :
    (update_phase s .training st m).status.upload = s.status.upload := rfl
@[simp] theorem update_phase_training_keep_conversion :
    (update_phase s .training st m).status.conversion = s.status.conversion := rfl
@[simp] theorem update_phase_training_keep_cleaning :
    (update_phase s .training st m).status.cleaning = s.status.cleaning := rfl
@[simp] theorem update_phase_training_self :
    (update_phase s .training st m).status.training =
      { status := st, timestamp := some s.clock, message := m } := rfl
@[simp] theorem update_phase_training_keep_inference :
    (update_phase s .training st m).status.inference = s.status.inference := rfl
@[simp] theorem update_phase_inference_keep_upload :
    (update_phase s .inference st m).status.upload = s.status.upload := rfl
@[simp] theorem update_phase_inference_keep_conversion :
    (update_phase s .inference st m).status.conversion = s.status.conversion := rfl
@[simp] theorem update_phase_inference_keep_cleaning :
    (update_phase s .inference st m).status.cleaning = s.status.cleaning := rfl
@[simp] theorem update_phase_inference_keep_training :
    (update_phase s .inference st m).status.training = s.status.training := rfl
@[simp] theorem update_phase_inference_self :
    (update_phase s .inference st m).status.inference =
      { status := st, timestamp := some s.clock, message := m } := rfl

/-! ## Boolean step helpers -/

theorem persistB_self (x : Status) : persistB x x = true := by cases x <;> rfl

theorem allowedB_self (x : Status) : allowedB x x = true := by cases x <;> rfl

theorem stepB_of_eq (a b : Snap)
    (h1 : b.status.upload.status = a.status.upload.status)
    (h2 : b.status.conversion.status = a.status.conversion.status)
    (h3 : b.status.cleaning.status = a.status.cleaning.status)
    (h4 : b.status.training.status = a.status.training.status)
    (h5 : b.status.inference.status = a.status.inference.status)
    (h6 : b.cmds.length = a.cmds.length) :
    stepB a b = true := by
  unfold stepB errStepB phaseStepB
  rw [h1, h2, h3, h4, h5, h6]
  simp [persistB_self, allowedB_self]

/-! ## TraceOK preservation -/

theorem TraceOK.head_cons (h : TraceOK s) :
    ∃ t, s.trace = { status := s.status, cmds := s.cmds } :: t := by
  obtain ⟨-, -, -, h4⟩ := h
  cases htr : s.trace with
  | nil => rw [htr] at h4; exact absurd h4 (by simp)
  | cons a t =>
    rw [htr] at h4
    simp only [List.head?, Option.some.injEq] at h4
    exact ⟨t, by rw [h4]⟩

theorem TraceOK.ebl (h : TraceOK s) : eblB s.status = true := by
  obtain ⟨t, htr⟩ := h.head_cons
  have h1 := h.1
  rw [htr] at h1
  simp only [List.all_cons, Bool.and_eq_true] at h1
  exact h1.1

theorem TraceOK.uploadNR (h : TraceOK s) :
    (s.status.upload.status == Status.running) = false := by
  obtain ⟨t, htr⟩ := h.head_cons
  have h2 := h.2.1
  rw [htr] at h2
  simp only [List.all_cons, Bool.and_eq_true, Bool.not_eq_true'] at h2
  exact h2.1

theorem traceOK_extend {s s' : RunState}
    (htr : s'.trace = { status := s'.status, cmds := s'.cmds } :: s.trace)
    (h : TraceOK s)
    (hebl : eblB s'.status = true)
    (hnr : (s'.status.upload.status == Status.running) = false)
    (hstep : stepB { status := s.status, cmds := s.cmds }
        { status := s'.status, cmds := s'.cmds } = true) :
    TraceOK s' := by
  obtain ⟨t, ht0⟩ := h.head_cons
  obtain ⟨h1, h2, h3, -⟩ := h
  refine ⟨?_, ?_, ?_, ?_⟩
  · rw [htr]
    simp only [List.all_cons, Bool.and_eq_true]
    exact ⟨hebl, h1⟩
  · rw [htr]
    simp only [List.all_cons, Bool.and_eq_true, Bool.not_eq_true']
    exact ⟨hnr, h2⟩
  · rw [htr, ht0]
    rw [ht0] at h3
    simp only [chronoB, Bool.and_eq_true]
    exact ⟨hstep, h3⟩
  · rw [htr]; rfl

theorem traceOK_add_log (h : TraceOK s) (m l : String) : TraceOK (add_log s m l) := by
  apply traceOK_extend rfl h
  · exact h.ebl
  · exact h.uploadNR
  · exact stepB_of_eq _ _ rfl rfl rfl rfl rfl rfl

theorem traceOK_set_model_ready (h : TraceOK s) (b : Bool) :
    TraceOK (set_model_ready s b) := by
  apply traceOK_extend rfl h
  · exact h.ebl
  · exact h.uploadNR
  · exact stepB_of_eq _ _ rfl rfl rfl rfl rfl rfl

theorem traceOK_pushCmd (h : TraceOK s) (hne : anyErrorB s.status = false)
    (c : List String) : TraceOK (pushCmd s c) := by
  apply traceOK_extend rfl h
  · exact h.ebl
  · exact h.uploadNR
  · simp only [pushCmd_status, pushCmd_cmds]
    unfold stepB errStepB phaseStepB
    rw [hne]
    simp [persistB_self, allowedB_self]

theorem traceOK_update_phase {s : RunState} (p : Phase) (st : Status) (m : String)
    (h : TraceOK s)
    (hebl : eblB (update_phase s p st m).status = true)
    (hnr : ((update_phase s p st m).status.upload.status == Status.running) = false)
    (hstep : stepB { status := s.status, cmds := s.cmds }
      { status := (update_phase s p st m).status, cmds := s.cmds } = true) :
    TraceOK (update_phase s p st m) := by
  have hmid : TraceOK (snap { s with
      status := { s.status.setPhase p
                    { status := st, timestamp := some s.clock, message := m } with
                  current_phase := phaseName p },
      clock := s.clock + 1 }) := by
    apply traceOK_extend rfl h
    · exact hebl
    · exact hnr
    · exact hstep
  exact traceOK_add_log hmid _ _

/-- `update_phase` preserves the run invariant whenever the decidable side
condition `updOkB` holds at the five statuses before the call. -/
theorem traceOK_update_phase5 {s : RunState} (p : Phase) (st : Status) (m : String)
    (h : TraceOK s) {u c0 cl t i : Status}
    (hu : s.status.upload.status = u) (hc : s.status.conversion.status = c0)
    (hcl : s.status.cleaning.status = cl) (ht : s.status.training.status = t)
    (hi : s.status.inference.status = i)
    (hok : updOkB p st u c0 cl t i = true) :
    TraceOK (update_phase s p st m) := by
  unfold updOkB at hok
  simp only [Bool.and_eq_true] at hok
  obtain ⟨⟨⟨⟨⟨⟨⟨⟨⟨⟨hpu, hpc⟩, hpcl⟩, hpt⟩, hpi⟩, hac⟩, hacl⟩, hat⟩, hai⟩, hq⟩, hnr⟩ := hok
  apply traceOK_update_phase p st m h
  · unfold eblB
    simp only [update_phase_upload_status, update_phase_conversion_status,
      update_phase_cleaning_status, update_phase_training_status,
      update_phase_inference_status, hu, hc, hcl, ht, hi]
    exact hq
  · simp only [update_phase_upload_status, hu]
    simpa using hnr
  · unfold stepB errStepB phaseStepB
    simp only [update_phase_upload_status, update_phase_conversion_status,
      update_phase_cleaning_status, update_phase_training_status,
      update_phase_inference_status, hu, hc, hcl, ht, hi]
    simp [hpu, hpc, hpcl, hpt, hpi, hac, hacl, hat, hai]

/-! ## `Good`-preservation combinators -/

variable {u cv cl tn iv : Status} {mr : Bool}

theorem Good.add_log (h : Good s u cv cl tn iv mr) (m l : String) :
    Good (add_log s m l) u cv cl tn iv mr :=
  ⟨traceOK_add_log h.1 m l, by simpa [Shape] using h.2⟩

theorem Good.pushCmd (h : Good s u cv cl tn iv mr)
    (hne : anyErrorT u cv cl tn iv = false) (cc : List String) :
    Good (pushCmd s cc) u cv cl tn iv mr := by
  obtain ⟨hT, hS⟩ := h
  refine ⟨traceOK_pushCmd hT ?_ cc, by simpa [Shape] using hS⟩
  obtain ⟨h1, h2, h3, h4, h5, -⟩ := hS
  unfold anyErrorB
  rw [h1, h2, h3, h4, h5]
  exact hne

theorem Good.setReady (h : Good s u cv cl tn iv mr) (b : Bool) :
    Good (set_model_ready s b) u cv cl tn iv b := by
  obtain ⟨hT, hS⟩ := h
  obtain ⟨h1, h2, h3, h4, h5, -⟩ := hS
  exact ⟨traceOK_set_model_ready hT b,
    by simp [Shape, h1, h2, h3, h4, h5]⟩

theorem Good.setFs (h : Good s u cv cl tn iv mr) (X : List (List String)) :
    Good (setFs s X) u cv cl tn iv mr := h

theorem Good.update (p : Phase) (st : Status) (m : String)
    (h : Good s u cv cl tn iv mr) (hok : updOkB p st u cv cl tn iv = true)
    {u' cv' cl' tn' iv' : Status}
    (hu' : u' = if p = .upload then st else u)
    (hc' : cv' = if p = .conversion then st else cv)
    (hcl' : cl' = if p = .cleaning then st else cl)
    (ht' : tn' = if p = .training then st else tn)
    (hi' : iv' = if p = .inference then st else iv) :
    Good (update_phase s p st m) u' cv' cl' tn' iv' mr := by
  subst hu' hc' hcl' ht' hi'
  obtain ⟨hT, hS⟩ := h
  obtain ⟨h1, h2, h3, h4, h5, h6⟩ := hS
  refine ⟨traceOK_update_phase5 p st m hT h1 h2 h3 h4 h5 hok, ?_⟩
  refine ⟨?_, ?_, ?_, ?_, ?_, ?_⟩ <;>
    simp [h1, h2, h3, h4, h5, h6]

/-- The final `model_ready` / inference-status relation, from a shape. -/
theorem mrEq_of_shape (hS : Shape s u cv cl tn iv mr)
    (hx : mr = (iv == Status.completed)) :
    s.status.model_ready = (s.status.inference.status == Status.completed) := by
  rw [hS.2.2.2.2.2, hS.2.2.2.2.1, hx]

/-! ## Stage specifications -/

set_option maxHeartbeats 1600000 in
theorem convRun_spec (w : World) (s : RunState)
    (h : Good s .completed .running .pending .pending .pending false) :
    (∀ fn' s', convRun w s = .ok (fn', s') →
        Good s' .completed .completed .pending .pending .pending false) ∧
    (∀ s', convRun w s = .error s' →
        Good s' .completed .error .pending .pending .pending false) := by
  have h1 : Good (pushCmd (add_log s
      ("Esecuzione comando: " ++ cmdText (converterCmd w)) "info") (converterCmd w))
      .completed .running .pending .pending .pending false :=
    (h.add_log _ _).pushCmd (by decide) _
  constructor
  · intro fn' s' heq
    unfold convRun at heq
    repeat' (first | split at heq | dsimp only at heq)
    all_goals
      first
      | exact Except.noConfusion heq
      | (injection heq with hpr
         injection hpr with hfn hs
         subst hs
         repeat' (first | with_reducible exact h1
                        | with_reducible apply Good.update
                        | with_reducible apply Good.add_log
                        | with_reducible apply Good.setFs
                        | with_reducible apply Good.pushCmd)
         all_goals first | decide | rfl)
  · intro s' heq
    unfold convRun at heq
    repeat' (first | split at heq | dsimp only at heq)
    all_goals
      first
      | exact Except.noConfusion heq
      | (injection heq with hs
         subst hs
         repeat' (first | with_reducible exact h1
                        | with_reducible apply Good.update
                        | with_reducible apply Good.add_log
                        | with_reducible apply Good.setFs
                        | with_reducible apply Good.pushCmd)
         all_goals first | decide | rfl)

set_option maxHeartbeats 1600000 in
theorem stageConversion_spec (w : World) (fn : String) (s : RunState)
    (h : Good s .completed .pending .pending .pending .pending false) :
    (∀ fn' s', stageConversion w fn s = .ok (fn', s') →
        ∃ cvv, (cvv = Status.pending ∨ cvv = Status.completed) ∧
          Good s' .completed cvv .pending .pending .pending false) ∧
    (∀ s', stageConversion w fn s = .error s' →
        Good s' .completed .error .pending .pending .pending false) := by
  have g1 : Good (update_phase s .conversion .running "Conversione Excel in CSV...")
      .completed .running .pending .pending .pending false :=
    Good.update .conversion .running _ h (by decide) rfl rfl rfl rfl rfl
  constructor
  · intro fn' s' heq
    unfold stageConversion at heq
    repeat' (first | split at heq | dsimp only at heq)
    all_goals
      first
      | exact Except.noConfusion heq
      | with_reducible exact ⟨_, Or.inr rfl, (convRun_spec w _ g1).1 _ _ heq⟩
      | with_reducible exact ⟨_, Or.inr rfl,
          (convRun_spec w _ ((g1.add_log _ _).setFs _)).1 _ _ heq⟩
      | (injection heq with hpr
         injection hpr with hfn hs
         subst hs
         first
         | with_reducible exact ⟨_, Or.inl rfl, h⟩
         | with_reducible exact ⟨_, Or.inl rfl, (h.setFs _).add_log _ _⟩
         | with_reducible exact ⟨_, Or.inl rfl, h.add_log _ _⟩)
  · intro s' heq
    unfold stageConversion at heq
    repeat' (first | split at heq | dsimp only at heq)
    all_goals
      first
      | exact Except.noConfusion heq
      | with_reducible exact (convRun_spec w _ g1).2 _ heq
      | with_reducible exact (convRun_spec w _ ((g1.add_log _ _).setFs _)).2 _ heq
      | (injection heq with hs
         subst hs
         repeat' (first | with_reducible exact g1
                        | with_reducible apply Good.update
                        | with_reducible apply Good.add_log
                        | with_reducible apply Good.setFs
                        | with_reducible apply Good.pushCmd)
         all_goals first | decide | rfl)

set_option maxHeartbeats 1600000 in
theorem stageCleaning_spec (w : World) (fn : String) (s : RunState) {cvv : Status}
    (hcv : cvv = Status.pending ∨ cvv = Status.completed)
    (h : Good s .completed cvv .pending .pending .pending false) :
    (∀ s', stageCleaning w fn s = .ok s' →
        Good s' .completed cvv .completed .pending .pending false) ∧
    (∀ s', stageCleaning w fn s = .error s' →
        Good s' .completed cvv .error .pending .pending false) := by
  rcases hcv with rfl | rfl <;>
  · have g1 : Good (update_phase s .cleaning .running "Pulizia e trasformazione dati...")
        .completed _ .running .pending .pending false :=
      Good.update .cleaning .running _ h (by decide) rfl rfl rfl rfl rfl
    have g2 : Good (pushCmd (add_log
        (update_phase s .cleaning .running "Pulizia e trasformazione dati...")
        ("Esecuzione comando: " ++ cmdText (cleaningCmd w fn)) "info") (cleaningCmd w fn))
        .completed _ .running .pending .pending false :=
      (g1.add_log _ _).pushCmd (by decide) _
    constructor <;>
    · intro s' heq
      unfold stageCleaning at heq
      repeat' (first | split at heq | dsimp only at heq)
      all_goals
        first
        | exact Except.noConfusion heq
        | (injection heq with hs
           subst hs
           repeat' (first | with_reducible exact g2
                          | with_reducible exact g1
                          | with_reducible apply Good.update
                          | with_reducible apply Good.add_log
                          | with_reducible apply Good.setFs
                          | with_reducible apply Good.pushCmd)
           all_goals first | decide | rfl)

set_option maxHeartbeats 1600000 in
theorem stageTraining_spec (w : World) (s : RunState) {cvv : Status}
    (hcv : cvv = Status.pending ∨ cvv = Status.completed)
    (h : Good s .completed cvv .completed .pending .pending false) :
    (∀ s', stageTraining w s = .ok s' →
        Good s' .completed cvv .completed .completed .pending false) ∧
    (∀ s', stageTraining w s = .error s' →
        Good s' .completed cvv .completed .error .pending false) := by
  rcases hcv with rfl | rfl <;>
  · have g1 : Good (update_phase s .training .running "Addestramento modello ML...")
        .completed _ .completed .running .pending false :=
      Good.update .training .running _ h (by decide) rfl rfl rfl rfl rfl
    have g2 : Good (pushCmd (add_log
        (update_phase s .training .running "Addestramento modello ML...")
        ("Esecuzione comando: " ++ cmdText (trainingCmd w)) "info") (trainingCmd w))
        .completed _ .completed .running .pending false :=
      (g1.add_log _ _).pushCmd (by decide) _
    constructor <;>
    · intro s' heq
      unfold stageTraining at heq
      repeat' (first | split at heq | dsimp only at heq)
      all_goals
        first
        | exact Except.noConfusion heq
        | (injection heq with hs
           subst hs
           repeat' (first | with_reducible exact g2
                          | with_reducible exact g1
                          | with_reducible apply Good.update
                          | with_reducible apply Good.add_log
                          | with_reducible apply Good.setFs
                          | with_reducible apply Good.pushCmd)
           all_goals first | decide | rfl)

theorem Good.mrDone (h : Good s u cv cl tn iv mr)
    (hx : mr = (iv == Status.completed)) :
    TraceOK s ∧
      s.status.model_ready = (s.status.inference.status == Status.completed) :=
  ⟨h.1, mrEq_of_shape h.2 hx⟩

set_option maxHeartbeats 1600000 in
theorem stageInference_spec (w : World) (s : RunState) {cvv : Status}
    (hcv : cvv = Status.pending ∨ cvv = Status.completed)
    (h : Good s .completed cvv .completed .completed .pending false) :
    TraceOK (stageInference w s) ∧
      (stageInference w s).status.model_ready =
        ((stageInference w s).status.inference.status == Status.completed) := by
  rcases hcv with rfl | rfl <;>
  · have g1 : Good (update_phase s .inference .running "Avvio servizio di inferenza...")
        .completed _ .completed .completed .running false :=
      Good.update .inference .running _ h (by decide) rfl rfl rfl rfl rfl
    unfold stageInference
    repeat' (first | split | dsimp only)
    all_goals
      apply Good.mrDone
    all_goals
      repeat' (first | with_reducible exact g1
                     | with_reducible apply Good.update
                     | with_reducible apply Good.add_log
                     | with_reducible apply Good.setFs
                     | with_reducible apply Good.setReady
                     | with_reducible apply Good.pushCmd)
    all_goals first | decide | rfl

/-! ## The full run -/

theorem good_upload (fn : String) (fs0 : List (List String)) :
    Good (upload_file fn (initState fs0))
      .completed .pending .pending .pending .pending false :=
  ⟨⟨rfl, rfl, rfl, rfl⟩, rfl, rfl, rfl, rfl, rfl, rfl⟩

theorem run_pipeline_good (w : World) (fn : String) (s : RunState)
    (h : Good s .completed .pending .pending .pending .pending false) :
    TraceOK (run_pipeline w fn s) ∧
      (run_pipeline w fn s).status.model_ready =
        ((run_pipeline w fn s).status.inference.status == Status.completed) := by
  unfold run_pipeline afterCleaning
  cases hc : stageConversion w fn s with
  | error s1 =>
    exact ((stageConversion_spec w fn s h).2 s1 hc).mrDone rfl
  | ok pr =>
    obtain ⟨fn1, s1⟩ := pr
    obtain ⟨cvv, hcv, hg1⟩ := (stageConversion_spec w fn s h).1 fn1 s1 hc
    dsimp only
    cases hcl : stageCleaning w fn1 s1 with
    | error s2 =>
      exact ((stageCleaning_spec w fn1 s1 hcv hg1).2 s2 hcl).mrDone rfl
    | ok s2 =>
      have hg2 := (stageCleaning_spec w fn1 s1 hcv hg1).1 s2 hcl
      dsimp only
      cases htr : stageTraining w s2 with
      | error s3 =>
        exact ((stageTraining_spec w s2 hcv hg2).2 s3 htr).mrDone rfl
      | ok s3 =>
        exact stageInference_spec w s3 hcv ((stageTraining_spec w s2 hcv hg2).1 s3 htr)

/-- The run invariant and the final `model_ready` relation, for every
world, filename and starting file set. -/
theorem uploadAndRun_good (w : World) (fn : String) (fs0 : List (List String)) :
    TraceOK (uploadAndRun w fn (initState fs0)) ∧
      (uploadAndRun w fn (initState fs0)).status.model_ready =
        ((uploadAndRun w fn (initState fs0)).status.inference.status ==
          Status.completed) :=
  run_pipeline_good w fn _ (good_upload fn fs0)

/-! ## Membership and projection helpers for the claim proofs -/

@[simp] theorem pendingPhase_status : pendingPhase.status = Status.pending := rfl
@[simp] theorem pendingPhase_message : pendingPhase.message = "" := rfl
@[simp] theorem pendingPhase_timestamp : pendingPhase.timestamp = none := rfl

theorem mem_fsRemove {fs : List (List String)} {p q : List String} :
    q ∈ fsRemove fs p ↔ q ∈ fs ∧ q ≠ p := by
  simp [fsRemove, List.mem_filter]

theorem mem_fsAdd {fs : List (List String)} {p q : List String} :
    q ∈ fsAdd fs p ↔ q = p ∨ (q ∈ fs ∧ q ≠ p) := by
  simp [fsAdd, mem_fsRemove]

@[simp] theorem fsHas_fsAdd_self (fs : List (List String)) (p : List String) :
    fsHas (fsAdd fs p) p = true := by
  simp [fsHas, mem_fsAdd]

@[simp] theorem upload_file_fs {fn : String} :
    (upload_file fn s).fs = fsAdd s.fs (rawPath fn) := rfl
@[simp] theorem upload_file_cmds {fn : String} : (upload_file fn s).cmds = s.cmds := rfl
@[simp] theorem upload_file_conversion {fn : String} :
    (upload_file fn s).status.conversion = pendingPhase := rfl
@[simp] theorem upload_file_cleaning {fn : String} :
    (upload_file fn s).status.cleaning = pendingPhase := rfl
@[simp] theorem upload_file_training {fn : String} :
    (upload_file fn s).status.training = pendingPhase := rfl
@[simp] theorem upload_file_inference {fn : String} :
    (upload_file fn s).status.inference = pendingPhase := rfl
@[simp] theorem upload_file_model_ready {fn : String} :
    (upload_file fn s).status.model_ready = false := rfl

set_option maxHeartbeats 1600000 in
/-- Facts preserved or produced by the cleaning stage regardless of the
worker's outcome: the invocation log is append-only, the cleaning worker
is invoked (with `DATASET_FILE=fn`) whenever the raw file exists, the
converter is never invoked by this stage, and only the cleaned artifact's
path can change existence. -/
theorem stageCleaning_frame (w : World) (fn : String) (s : RunState) (r : RunState)
    (h : stageCleaning w fn s = .ok r ∨ stageCleaning w fn s = .error r) :
    (∀ cc ∈ s.cmds, cc ∈ r.cmds) ∧
    (∀ le ∈ s.status.logs, le ∈ r.status.logs) ∧
    (fsHas s.fs (rawPath fn) = true → cleaningCmd w fn ∈ r.cmds) ∧
    (converterCmd w ∉ s.cmds → converterCmd w ∉ r.cmds) ∧
    (∀ pp, pp ≠ cleanedPath → (pp ∈ r.fs ↔ pp ∈ s.fs)) ∧
    r.status.conversion = s.status.conversion := by
  obtain heq | heq := h <;>
  · unfold stageCleaning at heq
    repeat' (first | split at heq | dsimp only at heq)
    all_goals
      first
      | exact Except.noConfusion heq
      | (injection heq with hs
         subst hs
         refine ⟨?_, ?_, ?_, ?_, ?_, ?_⟩ <;>
           simp_all [List.mem_append, mem_fsAdd, converterCmd, cleaningCmd])

set_option maxHeartbeats 1600000 in
/-- Facts preserved by the training stage, for either outcome. -/
theorem stageTraining_frame (w : World) (s : RunState) (r : RunState)
    (h : stageTraining w s = .ok r ∨ stageTraining w s = .error r) :
    r.status.cleaning = s.status.cleaning ∧
    r.status.conversion = s.status.conversion ∧
    (∀ cc ∈ s.cmds, cc ∈ r.cmds) ∧
    (∀ le ∈ s.status.logs, le ∈ r.status.logs) ∧
    (converterCmd w ∉ s.cmds → converterCmd w ∉ r.cmds) ∧
    (∀ pp, pp ≠ modelPath → (pp ∈ r.fs ↔ pp ∈ s.fs)) := by
  obtain heq | heq := h <;>
  · unfold stageTraining at heq
    repeat' (first | split at heq | dsimp only at heq)
    all_goals
      first
      | exact Except.noConfusion heq
      | (injection heq with hs
         subst hs
         refine ⟨?_, ?_, ?_, ?_, ?_, ?_⟩ <;>
           simp_all [List.mem_append, mem_fsAdd, converterCmd, trainingCmd])

set_option maxHeartbeats 1600000 in
/-- Facts preserved by the inference stage. -/
theorem stageInference_frame (w : World) (s : RunState) :
    (stageInference w s).status.cleaning = s.status.cleaning ∧
    (stageInference w s).status.conversion = s.status.conversion ∧
    (∀ cc ∈ s.cmds, cc ∈ (stageInference w s).cmds) ∧
    (∀ le ∈ s.status.logs, le ∈ (stageInference w s).status.logs) ∧
    (converterCmd w ∉ s.cmds → converterCmd w ∉ (stageInference w s).cmds) ∧
    (∀ pp, pp ≠ modelPath → (pp ∈ (stageInference w s).fs ↔ pp ∈ s.fs)) := by
  unfold stageInference
  repeat' (first | split | dsimp only)
  all_goals
    refine ⟨?_, ?_, ?_, ?_, ?_, ?_⟩ <;>
      simp_all [List.mem_append, converterCmd, stopCmd, rmCmd,
        networkLsCmd, inferenceCmd, psCmd]

/-- Facts preserved by everything `run_pipeline` does after a successful
cleaning stage (training and inference). -/
theorem afterCleaning_frame (w : World) (s : RunState) :
    (afterCleaning w s).status.cleaning = s.status.cleaning ∧
    (afterCleaning w s).status.conversion = s.status.conversion ∧
    (∀ cc ∈ s.cmds, cc ∈ (afterCleaning w s).cmds) ∧
    (∀ le ∈ s.status.logs, le ∈ (afterCleaning w s).status.logs) ∧
    (converterCmd w ∉ s.cmds → converterCmd w ∉ (afterCleaning w s).cmds) ∧
    (∀ pp, pp ≠ modelPath → (pp ∈ (afterCleaning w s).fs ↔ pp ∈ s.fs)) := by
  unfold afterCleaning
  cases htr : stageTraining w s with
  | error s3 => exact stageTraining_frame w s s3 (Or.inr htr)
  | ok s3 =>
    have f1 := stageTraining_frame w s s3 (Or.inl htr)
    have f2 := stageInference_frame w s3
    dsimp only
    refine ⟨f2.1.trans f1.1, f2.2.1.trans f1.2.1, ?_, ?_, ?_, ?_⟩
    · exact fun cc hc => f2.2.2.1 cc (f1.2.2.1 cc hc)
    · exact fun le hl => f2.2.2.2.1 le (f1.2.2.2.1 le hl)
    · exact fun hnc => f2.2.2.2.2.1 (f1.2.2.2.2.1 hnc)
    · exact fun pp hpp => (f2.2.2.2.2.2 pp hpp).trans (f1.2.2.2.2.2 pp hpp)

theorem chronoB_mono {R S : Snap → Snap → Bool}
    (h : ∀ a b, R a b = true → S a b = true) :
    ∀ l, chronoB R l = true → chronoB S l = true := by
  intro l
  induction l with
  | nil => exact fun _ => rfl
  | cons b t ih =>
    cases t with
    | nil => exact fun _ => rfl
    | cons a t2 =>
      intro hh
      simp only [chronoB, Bool.and_eq_true] at hh ⊢
      exact ⟨h _ _ hh.1, ih hh.2⟩

/-! ## Claim theorems -/

/-- C1: for every run of the pipeline (`run_pipeline`, started by a valid
upload), once any phase is set to status `error`, every phase ordered
after it in the fixed sequence (upload, conversion, cleaning, training,
inference) is `pending` in every snapshot of the run's trace, errored
phases stay errored from one snapshot to the next, and no further
subprocess is invoked after a snapshot containing an error
(`errStepB`). -/
theorem C1_error_halts_pipeline (w : World) (fn : String) (fs0 : List (List String)) :
    (uploadAndRun w fn (initState fs0)).trace.all (fun sn => eblB sn.status) = true ∧
    chronoB errStepB (uploadAndRun w fn (initState fs0)).trace = true := by
  obtain ⟨⟨h1, h2, h3, h4⟩, hmr⟩ := uploadAndRun_good w fn fs0
  refine ⟨h1, chronoB_mono ?_ _ h3⟩
  intro a b hab
  unfold stepB at hab
  simp only [Bool.and_eq_true] at hab
  exact hab.1

/-- C2 counterexample: in the happy-path run the claim "`model_ready` is
true iff the inference phase is `completed` in every reachable state"
fails: the trace reached through the program's own updates contains a
snapshot (the one broadcast by `update_phase('inference','completed',...)`
before line 270 sets `model_ready = True`) in which the inference phase
is `completed` while `model_ready` is still false. -/
theorem C2_model_ready_counterexample :
    (uploadAndRun wHappy "OnlineRetail.csv" (initState [])).trace.any
      (fun sn => (sn.status.inference.status == Status.completed)
        && !sn.status.model_ready) = true := by decide

/-- C2 amended: the biconditional `model_ready = true ↔ inference is
completed` holds at the completion of every operation — after the upload
handler's reset, after `run_pipeline` returns (for every world, filename
and initial file set), and after `clear`'s reset — but not in every
intermediate state of a run. -/
theorem C2_model_ready_iff_amended (w : World) (fn : String)
    (fs0 : List (List String)) (st : PipelineStatus) :
    ((uploadAndRun w fn (initState fs0)).status.model_ready = true ↔
      (uploadAndRun w fn (initState fs0)).status.inference.status = Status.completed) ∧
    ((uploadResetStatus st).model_ready = false ∧
      (uploadResetStatus st).inference.status = Status.pending) ∧
    ((clearResetStatus st).model_ready = false ∧
      (clearResetStatus st).inference.status = Status.pending) := by
  refine ⟨?_, ⟨rfl, rfl⟩, ⟨rfl, rfl⟩⟩
  rw [(uploadAndRun_good w fn fs0).2]
  exact beq_iff_eq

/-- C5 counterexample: the reset performed by a valid upload trigger
(lines 306-309) does not set `current_phase` to `idle`: performed on the
(reachable) state left by a fully successful run, whose `current_phase`
is `"inference"`, it leaves `current_phase` unchanged, contradicting the
claim that every reset yields `current_phase = 'idle'`. -/
theorem C5_reset_counterexample :
    (uploadResetStatus
        (uploadAndRun wHappy "OnlineRetail.csv" (initState [])).status).current_phase
      ≠ "idle" := by decide

/-- C5 amended: both resets set all five phases to `pending` with empty
message and no timestamp, clear the logs and `model_ready`, and are
idempotent; `clear`'s reset (lines 426-430) also sets `current_phase` to
`idle`, while the upload trigger's reset (lines 306-309) leaves
`current_phase` unchanged. -/
theorem C5_reset_amended (st : PipelineStatus) :
    ((uploadResetStatus st).upload = pendingPhase ∧
     (uploadResetStatus st).conversion = pendingPhase ∧
     (uploadResetStatus st).cleaning = pendingPhase ∧
     (uploadResetStatus st).training = pendingPhase ∧
     (uploadResetStatus st).inference = pendingPhase ∧
     (uploadResetStatus st).logs = [] ∧
     (uploadResetStatus st).model_ready = false ∧
     (uploadResetStatus st).current_phase = st.current_phase ∧
     uploadResetStatus (uploadResetStatus st) = uploadResetStatus st) ∧
    ((clearResetStatus st).upload = pendingPhase ∧
     (clearResetStatus st).conversion = pendingPhase ∧
     (clearResetStatus st).cleaning = pendingPhase ∧
     (clearResetStatus st).training = pendingPhase ∧
     (clearResetStatus st).inference = pendingPhase ∧
     (clearResetStatus st).logs = [] ∧
     (clearResetStatus st).model_ready = false ∧
     (clearResetStatus st).current_phase = "idle" ∧
     clearResetStatus (clearResetStatus st) = clearResetStatus st) ∧
    pendingPhase = { status := Status.pending, timestamp := none, message := "" } :=
  ⟨⟨rfl, rfl, rfl, rfl, rfl, rfl, rfl, rfl, rfl⟩,
   ⟨rfl, rfl, rfl, rfl, rfl, rfl, rfl, rfl, rfl⟩, rfl⟩

/-- C6 counterexample: the upload phase reaches `completed` in a run's
trace while never being `running` in any snapshot: `upload_file` (line
319) sets it from `pending` directly to `completed`, contradicting the
claim that no phase reaches `completed` or `error` without first having
been `running`. -/
theorem C6_transition_counterexample :
    ((uploadAndRun wHappy "OnlineRetail.csv" (initState [])).trace.any
      (fun sn => sn.status.upload.status == Status.completed) = true) ∧
    ((uploadAndRun wHappy "OnlineRetail.csv" (initState [])).trace.all
      (fun sn => !(sn.status.upload.status == Status.running)) = true) := by
  constructor <;> decide

/-- C6 amended: within a run, the four phases driven by `run_pipeline`
(conversion, cleaning, training, inference) only ever step along
`pending → running → (completed | error)` and never move backward
(`phaseStepB` between adjacent trace snapshots); the upload phase is set
from `pending` directly to `completed` by the upload handler, never
passing through `running`. -/
theorem C6_transition_amended (w : World) (fn : String) (fs0 : List (List String)) :
    chronoB phaseStepB (uploadAndRun w fn (initState fs0)).trace = true ∧
    (uploadAndRun w fn (initState fs0)).trace.all
      (fun sn => !(sn.status.upload.status == Status.running)) = true := by
  obtain ⟨⟨h1, h2, h3, h4⟩, hmr⟩ := uploadAndRun_good w fn fs0
  refine ⟨chronoB_mono ?_ _ h3, h2⟩
  intro a b hab
  unfold stepB at hab
  simp only [Bool.and_eq_true] at hab
  exact hab.2

@[simp] theorem upload_file_upload {fn : String} :
    (upload_file fn s).status.upload =
      { status := Status.completed, timestamp := some s.clock,
        message := "File " ++ fn ++ " caricato con successo" } := rfl

/-- C3: if the cleaning worker exits 0 but the cleaned artifact does not
exist (it was not created and was not present before the run), the
cleaning phase is set to `error` with the message indicating the missing
output, `run_pipeline` returns (the training worker is never invoked) and
the training phase stays `pending`.  The scenario uploads the canonical
CSV name so that conversion is skipped. -/
theorem C3_cleaning_artifact_gate (w : World) (fs0 : List (List String))
    (out err : String)
    (hcl : w.cleaningProc = ProcOutcome.finished 0 out err)
    (hnc : w.cleaningCreatesFile = false)
    (hstale : fsHas fs0 cleanedPath = false) :
    (uploadAndRun w "OnlineRetail.csv" (initState fs0)).status.cleaning.status
        = Status.error ∧
    (uploadAndRun w "OnlineRetail.csv" (initState fs0)).status.cleaning.message
        = "File pulito non creato" ∧
    (uploadAndRun w "OnlineRetail.csv" (initState fs0)).status.training.status
        = Status.pending ∧
    trainingCmd w ∉ (uploadAndRun w "OnlineRetail.csv" (initState fs0)).cmds := by
  simp only [fsHas, decide_eq_false_iff_not] at hstale
  have e1 : strEndsWith "OnlineRetail.csv" ".xlsx" = false := rfl
  have e2 : fsHas (fsAdd fs0 (rawPath "OnlineRetail.csv")) (rawPath "OnlineRetail.csv")
      = true := by simp [fsHas, mem_fsAdd]
  have e3 : fsHas (fsAdd fs0 (rawPath "OnlineRetail.csv")) cleanedPath = false := by
    have hne : cleanedPath ≠ rawPath "OnlineRetail.csv" := by decide
    simp [fsHas, mem_fsAdd, hne, hstale]
  unfold uploadAndRun run_pipeline stageConversion stageCleaning
  simp [e1, e2, e3, hcl, hnc, trainingCmd, cleaningCmd]

/-- C3 witness: the concrete no-artifact world. -/
theorem C3_cleaning_artifact_gate_witness :
    (wNoArtifact.cleaningProc = ProcOutcome.finished 0 "ok" "" ∧
     wNoArtifact.cleaningCreatesFile = false ∧
     fsHas [] cleanedPath = false) ∧
    ((uploadAndRun wNoArtifact "OnlineRetail.csv" (initState [])).status.cleaning.status
        = Status.error ∧
     (uploadAndRun wNoArtifact "OnlineRetail.csv" (initState [])).status.cleaning.message
        = "File pulito non creato" ∧
     (uploadAndRun wNoArtifact "OnlineRetail.csv" (initState [])).status.training.status
        = Status.pending ∧
     trainingCmd wNoArtifact ∉
        (uploadAndRun wNoArtifact "OnlineRetail.csv" (initState [])).cmds) :=
  ⟨⟨rfl, rfl, rfl⟩, C3_cleaning_artifact_gate wNoArtifact [] "ok" "" rfl rfl rfl⟩

/-- C4 counterexample: in a run in which every stage succeeds until the
unguarded `docker stop` call (line 233) raises, the exception is caught
by `run_pipeline`'s top-level handler and logged, but no phase is
recorded as `error`: the inference phase keeps the status `running` it
was given on entry, so the claim that the top-level handler records the
exception as an `error` phase update is false. -/
theorem C4_exception_counterexample :
    ((uploadAndRun wStopRaises "OnlineRetail.csv" (initState [])).status.logs.any
      (fun le => (le.message == "Errore nella pipeline: docker daemon unreachable")
        && (le.level == "error")) = true) ∧
    (uploadAndRun wStopRaises "OnlineRetail.csv" (initState [])).status.inference.status
      = Status.running ∧
    (uploadAndRun wStopRaises "OnlineRetail.csv" (initState [])).status.upload.status
      ≠ Status.error ∧
    (uploadAndRun wStopRaises "OnlineRetail.csv" (initState [])).status.conversion.status
      ≠ Status.error ∧
    (uploadAndRun wStopRaises "OnlineRetail.csv" (initState [])).status.cleaning.status
      ≠ Status.error ∧
    (uploadAndRun wStopRaises "OnlineRetail.csv" (initState [])).status.training.status
      ≠ Status.error := by
  refine ⟨by decide, by decide, by decide, by decide, by decide, by decide⟩

/-- C4 amended: an internal exception reaching `run_pipeline`'s top-level
handler (modelled by the unguarded `docker stop` raising) is caught —
`run_pipeline` returns normally — and logged as an error-level log entry,
but it is not recorded as an `error` phase update: no phase has status
`error` afterwards, and the inference phase stays `running`. -/
theorem C4_exception_logged_amended (w : World) (fs0 : List (List String))
    (e co ce t1 t2 : String)
    (hcl : w.cleaningProc = ProcOutcome.finished 0 co ce)
    (hccf : w.cleaningCreatesFile = true)
    (htr : w.trainingProc = ProcOutcome.finished 0 t1 t2)
    (htm : w.trainingCreatesModel = true)
    (hstop : w.stopRaises = some e) :
    ((uploadAndRun w "OnlineRetail.csv" (initState fs0)).status.logs.any
      (fun le => (le.message == "Errore nella pipeline: " ++ e)
        && (le.level == "error")) = true) ∧
    (uploadAndRun w "OnlineRetail.csv" (initState fs0)).status.inference.status
      = Status.running ∧
    (uploadAndRun w "OnlineRetail.csv" (initState fs0)).status.upload.status
      ≠ Status.error ∧
    (uploadAndRun w "OnlineRetail.csv" (initState fs0)).status.conversion.status
      ≠ Status.error ∧
    (uploadAndRun w "OnlineRetail.csv" (initState fs0)).status.cleaning.status
      ≠ Status.error ∧
    (uploadAndRun w "OnlineRetail.csv" (initState fs0)).status.training.status
      ≠ Status.error := by
  have e1 : strEndsWith "OnlineRetail.csv" ".xlsx" = false := rfl
  have e2 : fsHas (fsAdd fs0 (rawPath "OnlineRetail.csv")) (rawPath "OnlineRetail.csv")
      = true := by simp [fsHas, mem_fsAdd]
  unfold uploadAndRun run_pipeline afterCleaning stageConversion stageCleaning
    stageTraining stageInference
  simp [e1, e2, hcl, hccf, htr, htm, hstop]

/-- C4 amended witness: the concrete stop-raising world. -/
theorem C4_exception_logged_amended_witness :
    (wStopRaises.cleaningProc = ProcOutcome.finished 0 "ok" "" ∧
     wStopRaises.cleaningCreatesFile = true ∧
     wStopRaises.trainingProc = ProcOutcome.finished 0 "ok" "" ∧
     wStopRaises.trainingCreatesModel = true ∧
     wStopRaises.stopRaises = some "docker daemon unreachable") ∧
    ((uploadAndRun wStopRaises "OnlineRetail.csv" (initState [])).status.logs.any
      (fun le => (le.message == "Errore nella pipeline: " ++ "docker daemon unreachable")
        && (le.level == "error")) = true) :=
  ⟨⟨rfl, rfl, rfl, rfl, rfl⟩,
   (C4_exception_logged_amended wStopRaises [] "docker daemon unreachable"
      "ok" "" "ok" "" rfl rfl rfl rfl rfl).1⟩

/-- When the cleaning worker exits 0 and creates its artifact, and the raw
input file exists, the cleaning stage succeeds. -/
theorem stageCleaning_ok_of (w : World) (fn : String) (s : RunState) (co ce : String)
    (hcl : w.cleaningProc = ProcOutcome.finished 0 co ce)
    (hccf : w.cleaningCreatesFile = true)
    (hex : fsHas s.fs (rawPath fn) = true) :
    ∃ rr, stageCleaning w fn s = .ok rr := by
  unfold stageCleaning
  simp [hcl, hccf, hex]

set_option maxHeartbeats 800000 in
/-- C7: for an upload whose filename does not end in `.xlsx` and is not
already the canonical name, when the rename and the cleaning worker
behave normally: the conversion worker is never invoked, the file is
renamed to the canonical `OnlineRetail.csv` (present afterwards, the
original name gone, any stale file at the canonical path overwritten),
the cleaning worker is invoked with the canonical name passed via
`DATASET_FILE`, and the cleaning phase becomes `completed`. -/
theorem C7_csv_skips_conversion (w : World) (fs0 : List (List String))
    (fn co ce : String)
    (hx : strEndsWith fn ".xlsx" = false)
    (hfn : fn ≠ "OnlineRetail.csv")
    (hrn : w.renameCsvRaises = none)
    (hcl : w.cleaningProc = ProcOutcome.finished 0 co ce)
    (hccf : w.cleaningCreatesFile = true) :
    converterCmd w ∉ (uploadAndRun w fn (initState fs0)).cmds ∧
    cleaningCmd w "OnlineRetail.csv" ∈ (uploadAndRun w fn (initState fs0)).cmds ∧
    rawPath "OnlineRetail.csv" ∈ (uploadAndRun w fn (initState fs0)).fs ∧
    rawPath fn ∉ (uploadAndRun w fn (initState fs0)).fs ∧
    (uploadAndRun w fn (initState fs0)).status.cleaning.status = Status.completed := by
  have hconv : stageConversion w fn (upload_file fn (initState fs0)) =
      .ok ("OnlineRetail.csv",
        add_log (setFs (upload_file fn (initState fs0))
            (fsAdd (fsRemove (upload_file fn (initState fs0)).fs (rawPath fn))
              (rawPath "OnlineRetail.csv")))
          "Rinominato CSV in OnlineRetail.csv" "info") := by
    unfold stageConversion
    simp [hx, hfn, hrn]
  set s1 := add_log (setFs (upload_file fn (initState fs0))
      (fsAdd (fsRemove (upload_file fn (initState fs0)).fs (rawPath fn))
        (rawPath "OnlineRetail.csv"))) "Rinominato CSV in OnlineRetail.csv" "info"
    with hs1
  obtain ⟨cvv, hcv, hg1⟩ :=
    (stageConversion_spec w fn _ (good_upload fn fs0)).1 _ _ hconv
  have hex : fsHas s1.fs (rawPath "OnlineRetail.csv") = true := by
    simp [hs1, fsHas, mem_fsAdd]
  obtain ⟨s2, hclean⟩ := stageCleaning_ok_of w "OnlineRetail.csv" s1 co ce hcl hccf hex
  have hG2 := (stageCleaning_spec w "OnlineRetail.csv" s1 hcv hg1).1 s2 hclean
  have hfr := stageCleaning_frame w "OnlineRetail.csv" s1 s2 (Or.inl hclean)
  have haf := afterCleaning_frame w s2
  have hr : uploadAndRun w fn (initState fs0) = afterCleaning w s2 := by
    unfold uploadAndRun run_pipeline
    rw [hconv]
    dsimp only
    rw [hclean]
  rw [hr]
  refine ⟨?_, ?_, ?_, ?_, ?_⟩
  · apply haf.2.2.2.2.1
    apply hfr.2.2.2.1
    simp [hs1]
  · exact haf.2.2.1 _ (hfr.2.2.1 hex)
  · have h1 : rawPath "OnlineRetail.csv" ∈ s1.fs := by simp [hs1, mem_fsAdd]
    have h2 : rawPath "OnlineRetail.csv" ∈ s2.fs :=
      (hfr.2.2.2.2.1 _ (by decide)).mpr h1
    exact (haf.2.2.2.2.2 _ (by decide)).mpr h2
  · have hne1 : rawPath fn ≠ rawPath "OnlineRetail.csv" := by simp [rawPath, hfn]
    have h1 : rawPath fn ∉ s1.fs := by
      simp [hs1, mem_fsAdd, mem_fsRemove, hne1]
    have hne2 : rawPath fn ≠ cleanedPath := by simp [rawPath, cleanedPath]
    have hne3 : rawPath fn ≠ modelPath := by simp [rawPath, modelPath]
    intro hmem
    exact h1 ((hfr.2.2.2.2.1 _ hne2).mp ((haf.2.2.2.2.2 _ hne3).mp hmem))
  · rw [haf.1]
    exact hG2.2.2.2.1

/-- C7 witness: uploading `sales.csv` over a stale canonical file. -/
theorem C7_csv_skips_conversion_witness :
    (strEndsWith "sales.csv" ".xlsx" = false ∧
     "sales.csv" ≠ "OnlineRetail.csv" ∧
     wHappy.renameCsvRaises = none ∧
     wHappy.cleaningProc = ProcOutcome.finished 0 "ok" "" ∧
     wHappy.cleaningCreatesFile = true) ∧
    (converterCmd wHappy ∉
       (uploadAndRun wHappy "sales.csv" (initState [["raw", "OnlineRetail.csv"]])).cmds ∧
     cleaningCmd wHappy "OnlineRetail.csv" ∈
       (uploadAndRun wHappy "sales.csv" (initState [["raw", "OnlineRetail.csv"]])).cmds ∧
     rawPath "OnlineRetail.csv" ∈
       (uploadAndRun wHappy "sales.csv" (initState [["raw", "OnlineRetail.csv"]])).fs ∧
     rawPath "sales.csv" ∉
       (uploadAndRun wHappy "sales.csv" (initState [["raw", "OnlineRetail.csv"]])).fs ∧
     (uploadAndRun wHappy "sales.csv"
       (initState [["raw", "OnlineRetail.csv"]])).status.cleaning.status
         = Status.completed) :=
  ⟨⟨rfl, by decide, rfl, rfl, rfl⟩,
   C7_csv_skips_conversion wHappy [["raw", "OnlineRetail.csv"]] "sales.csv" "ok" ""
     rfl (by decide) rfl rfl rfl⟩

set_option maxHeartbeats 800000 in
/-- C9: when the rename of a non-canonical CSV raises, `run_pipeline`
does not halt: it appends an error-level log entry and continues into the
cleaning phase with the original filename — since the uploaded file still
exists under its original name in `raw/`, the cleaning worker is invoked
with that original name as `DATASET_FILE` — and the cleaning phase does
not remain `pending`. -/
theorem C9_rename_failure_continues (w : World) (fs0 : List (List String))
    (fn e : String)
    (hx : strEndsWith fn ".xlsx" = false)
    (hfn : fn ≠ "OnlineRetail.csv")
    (hrn : w.renameCsvRaises = some e) :
    ((uploadAndRun w fn (initState fs0)).status.logs.any
      (fun le => (le.message == "Errore nel rinominare CSV: " ++ e)
        && (le.level == "error")) = true) ∧
    cleaningCmd w fn ∈ (uploadAndRun w fn (initState fs0)).cmds ∧
    (uploadAndRun w fn (initState fs0)).status.cleaning.status ≠ Status.pending := by
  have hconv : stageConversion w fn (upload_file fn (initState fs0)) =
      .ok (fn, add_log (upload_file fn (initState fs0))
        ("Errore nel rinominare CSV: " ++ e) "error") := by
    unfold stageConversion
    simp [hx, hfn, hrn]
  set s1 := add_log (upload_file fn (initState fs0))
      ("Errore nel rinominare CSV: " ++ e) "error" with hs1
  obtain ⟨cvv, hcv, hg1⟩ :=
    (stageConversion_spec w fn _ (good_upload fn fs0)).1 _ _ hconv
  have hex : fsHas s1.fs (rawPath fn) = true := by
    simp [hs1, fsHas, mem_fsAdd]
  have hlog1 : LogEntry.mk (upload_file fn (initState fs0)).clock
      ("Errore nel rinominare CSV: " ++ e) "error" ∈ s1.status.logs := by
    simp [hs1]
  unfold uploadAndRun run_pipeline
  rw [hconv]
  dsimp only
  cases hres : stageCleaning w fn s1 with
  | error s2 =>
    dsimp only
    have hfr := stageCleaning_frame w fn s1 s2 (Or.inr hres)
    have hG2 := (stageCleaning_spec w fn s1 hcv hg1).2 s2 hres
    refine ⟨?_, ?_, ?_⟩
    · rw [List.any_eq_true]
      exact ⟨_, hfr.2.1 _ hlog1, by simp⟩
    · exact hfr.2.2.1 hex
    · rw [hG2.2.2.2.1]
      decide
  | ok s2 =>
    dsimp only
    have hfr := stageCleaning_frame w fn s1 s2 (Or.inl hres)
    have hG2 := (stageCleaning_spec w fn s1 hcv hg1).1 s2 hres
    have haf := afterCleaning_frame w s2
    refine ⟨?_, ?_, ?_⟩
    · rw [List.any_eq_true]
      exact ⟨_, haf.2.2.2.1 _ (hfr.2.1 _ hlog1), by simp⟩
    · exact haf.2.2.1 _ (hfr.2.2.1 hex)
    · rw [haf.1, hG2.2.2.2.1]
      decide

/-- C9 witness: uploading `sales.csv` with a raising rename. -/
theorem C9_rename_failure_continues_witness :
    (strEndsWith "sales.csv" ".xlsx" = false ∧
     "sales.csv" ≠ "OnlineRetail.csv" ∧
     wRenameFails.renameCsvRaises = some "Permission denied") ∧
    (((uploadAndRun wRenameFails "sales.csv" (initState [])).status.logs.any
      (fun le => (le.message == "Errore nel rinominare CSV: " ++ "Permission denied")
        && (le.level == "error")) = true) ∧
     cleaningCmd wRenameFails "sales.csv" ∈
       (uploadAndRun wRenameFails "sales.csv" (initState [])).cmds ∧
     (uploadAndRun wRenameFails "sales.csv" (initState [])).status.cleaning.status
       ≠ Status.pending) :=
  ⟨⟨rfl, by decide, rfl⟩,
   C9_rename_failure_continues wRenameFails [] "sales.csv" "Permission denied"
     rfl (by decide) rfl⟩

/-- C8: for every `/predict` call whose JSON payload parses, if the
inference worker is unreachable (`requests.post` raises a
`RequestException`) the handler returns the distinct 503
service-unavailable reply with the fixed error body — it does not
propagate the exception (the embedded handler is a total function) — and
if the worker is reachable its JSON response is relayed back verbatim
with code 200. -/
theorem C8_predict_proxy (w : PredictWorld) (s : RunState) (p : String)
    (hp : w.payload = some p) :
    (∀ e, w.postResult = .error e →
      (predict w s).1 =
        { code := 503, body := .errorBody "Servizio di inferenza non disponibile" }) ∧
    (∀ b, w.postResult = .ok b →
      (predict w s).1 = { code := 200, body := .relayed b }) := by
  constructor <;> intro x hx <;> (unfold predict; rw [hp, hx])

/-- C8 witness: the worker-down world. -/
theorem C8_predict_proxy_witness :
    pwDown.payload = some "data" ∧ pwDown.postResult = Except.error "ConnectionError" ∧
    (predict pwDown (initState [])).1 =
      { code := 503, body := .errorBody "Servizio di inferenza non disponibile" } :=
  ⟨rfl, rfl,
   (C8_predict_proxy pwDown (initState []) "data" rfl).1 "ConnectionError" rfl⟩

theorem mem_clearFolderStep_sub {acc : List FsEntry} {folder : String} {e : FsEntry}
    (h : e ∈ clearFolderStep acc folder) : e ∈ acc := by
  unfold clearFolderStep at h
  split at h
  · exact List.mem_of_mem_filter h
  · exact h

theorem isDirectFileIn_iff {d : String} {e : FsEntry} :
    isDirectFileIn d e = true ↔ e.isFile = true ∧ ∃ fnm, e.path = [d, fnm] := by
  rcases e with ⟨pa, fi⟩
  rcases pa with - | ⟨a, - | ⟨b, - | -⟩⟩ <;>
    simp [isDirectFileIn, Bool.and_eq_true, beq_iff_eq, List.cons.injEq]

theorem mem_clearFolderStep_keep {acc : List FsEntry} {folder : String} {e : FsEntry}
    (he : e ∈ acc) (hk : isDirectFileIn folder e = false) :
    e ∈ clearFolderStep acc folder := by
  unfold clearFolderStep
  split
  · exact List.mem_filter.mpr ⟨he, by simp [hk]⟩
  · exact he

theorem clearFolderStep_kills {acc : List FsEntry} {folder : String} {e : FsEntry}
    (hdir : ∃ x ∈ acc, x.path = [folder])
    (hf : isDirectFileIn folder e = true) : e ∉ clearFolderStep acc folder := by
  obtain ⟨x, hx, hxp⟩ := hdir
  unfold clearFolderStep
  rw [if_pos]
  · intro hmem
    have := (List.mem_filter.mp hmem).2
    simp [hf] at this
  · rw [List.any_eq_true]
    exact ⟨x, hx, by simp [hxp]⟩

theorem dir_not_directFile {d folder : String} {e : FsEntry} (h : e.path = [d]) :
    isDirectFileIn folder e = false := by
  unfold isDirectFileIn
  rw [h]
  simp

/-- C10: `clearFiles` (the deletion loop of `clear_data`) deletes only
regular files located directly inside the `raw`, `processed` and `model`
folders: it creates nothing, every entry it removes is a regular file
whose path is exactly `[d, name]` for one of the three folders, and every
other entry — in particular every subdirectory of those folders and every
file inside such a subdirectory — is left unchanged; moreover, when a
folder exists, its direct regular files are indeed removed. -/
theorem C10_clear_frame (fs : List FsEntry) (ent : FsEntry) :
    (ent ∈ clearFiles fs → ent ∈ fs) ∧
    (ent ∈ fs →
      ¬(ent.isFile = true ∧ ∃ d, d ∈ clearFolderNames ∧ ∃ fnm, ent.path = [d, fnm]) →
      ent ∈ clearFiles fs) ∧
    (∀ d, d ∈ clearFolderNames → (∃ x ∈ fs, x.path = [d]) →
      isDirectFileIn d ent = true → ent ∉ clearFiles fs) := by
  have hstep : clearFiles fs =
      clearFolderStep (clearFolderStep (clearFolderStep fs "raw") "processed") "model" := rfl
  refine ⟨?_, ?_, ?_⟩
  · intro h
    rw [hstep] at h
    exact mem_clearFolderStep_sub (mem_clearFolderStep_sub (mem_clearFolderStep_sub h))
  · intro hmem hnot
    rw [hstep]
    have hk : ∀ d, d ∈ clearFolderNames → isDirectFileIn d ent = false := by
      intro d hd
      rcases hb : isDirectFileIn d ent with - | -
      · rfl
      · exact absurd ⟨(isDirectFileIn_iff.mp hb).1, d, hd, (isDirectFileIn_iff.mp hb).2⟩ hnot
    exact mem_clearFolderStep_keep
      (mem_clearFolderStep_keep
        (mem_clearFolderStep_keep hmem (hk "raw" (by decide)))
        (hk "processed" (by decide)))
      (hk "model" (by decide))
  · intro d hd hdir hf
    rw [hstep]
    have hdirpres : ∀ (acc : List FsEntry) (folder : String),
        (∃ x ∈ acc, x.path = [d]) → ∃ x ∈ clearFolderStep acc folder, x.path = [d] := by
      intro acc folder ⟨x, hx, hxp⟩
      exact ⟨x, mem_clearFolderStep_keep hx (dir_not_directFile hxp), hxp⟩
    have hkill : ∀ (acc : List FsEntry), (∃ x ∈ acc, x.path = [d]) →
        ent ∉ clearFolderStep acc d := fun acc hh => clearFolderStep_kills hh hf
    have hnotin : ∀ (acc : List FsEntry) (folder : String),
        ent ∉ acc → ent ∉ clearFolderStep acc folder :=
      fun acc folder hna hmem => hna (mem_clearFolderStep_sub hmem)
    have hdlist : d = "raw" ∨ d = "processed" ∨ d = "model" := by
      simpa [clearFolderNames] using hd
    rcases hdlist with rfl | rfl | rfl
    · exact hnotin _ _ (hnotin _ _ (hkill _ hdir))
    · exact hnotin _ _ (hkill _ (hdirpres _ _ hdir))
    · exact hkill _ (hdirpres _ _ (hdirpres _ _ hdir))

/-- C10 witness: in the concrete filesystem, the direct regular file
`raw/data.csv` is deleted while the subdirectory `raw/sub` and the file
`raw/sub/inner.csv` inside it survive `clearFiles`. -/
theorem C10_clear_frame_witness :
    (FsEntry.mk ["raw", "sub", "inner.csv"] true ∈ fsC10 ∧
     FsEntry.mk ["raw", "sub", "inner.csv"] true ∈ clearFiles fsC10) ∧
    (FsEntry.mk ["raw", "sub"] false ∈ clearFiles fsC10) ∧
    (FsEntry.mk ["raw", "data.csv"] true ∉ clearFiles fsC10) :=
  ⟨⟨by decide,
    (C10_clear_frame fsC10 (FsEntry.mk ["raw", "sub", "inner.csv"] true)).2.1
      (by decide) (by simp [clearFolderNames])⟩,
   (C10_clear_frame fsC10 (FsEntry.mk ["raw", "sub"] false)).2.1 (by decide)
     (by simp [clearFolderNames]),
   (C10_clear_frame fsC10 (FsEntry.mk ["raw", "data.csv"] true)).2.2 "raw" (by decide)
     ⟨FsEntry.mk ["raw"] false, by decide, rfl⟩ (by decide)⟩

end WebApp
